import Mathlib

/-
Shallow embedding of the rusty-lock session-event listener
(src/main.rs and src/wynapi.rs).

External OS calls (RegisterClassExA, CreateWindowExA,
WTSRegisterSessionNotification, GetMessageA, GetLastError) are modelled
by passing their results in explicitly: an OsOracle record holds the
result each external call would produce, and the wrappers below are the
verbatim control flow of the Rust wrappers over those results.

Machine-integer types are mapped as follows: usize (wParam) and the
ATOM returned by RegisterClassExA become Nat; pointer-sized handles
(HWND) become Int with 0 standing for the null pointer; the signed
DWORD, LPARAM, LONG fields become Int.  None of the code performs
arithmetic on these values (they are only compared against literals),
so no modular reduction arises.

A Rust panic (expect, unwrap, the unimplemented macro) does not return
to the caller; where a claim needs to distinguish a panic from a normal
return, the outcome type has a dedicated constructor for it, and where
a fallible call only distinguishes success from failure, Option is used
exactly as the source does.
-/

namespace RustyLock

/-- Flag passed to WTSRegisterSessionNotification to request
notifications for the calling session only (wynapi.rs line 41). -/
def NOTIFY_FOR_THIS_SESSION : Int := 0

/-- Flag requesting notifications for all sessions on the host
(wynapi.rs line 42); declared in the source but never passed. -/
def NOTIFY_FOR_ALL_SESSIONS : Int := 1

/-- The closed enumeration of session events, enum WtsState in
wynapi.rs lines 46 to 56.  The spelling RemoteDisconnnect (three n)
is kept from the source; it is the variant the spec calls
RemoteDisconnect. -/
inductive WtsState
  | ConsoleConnect
  | ConsoleDisconnect
  | RemoteConnect
  | RemoteDisconnnect
  | Logon
  | Logoff
  | Lock
  | Unlock
  | RemoteControl
  deriving DecidableEq, Repr

/-- The Event Decoder: impl TryFrom of usize for WtsState,
wynapi.rs lines 58 to 78.  Ok v becomes some v; the catch-all arm logs
at error level and returns Err of unit, which becomes none. -/
def WtsState.try_from (lparam : Nat) : Option WtsState :=
  match lparam with
  | 0x1 => some WtsState.ConsoleConnect
  | 0x2 => some WtsState.ConsoleDisconnect
  | 0x3 => some WtsState.RemoteConnect
  | 0x4 => some WtsState.RemoteDisconnnect
  | 0x5 => some WtsState.Logon
  | 0x6 => some WtsState.Logoff
  | 0x7 => some WtsState.Lock
  | 0x8 => some WtsState.Unlock
  | 0x9 => some WtsState.RemoteControl
  | _ => none

/-- The error taxonomy, enum Error in wynapi.rs lines 119 to 127. -/
inductive Error
  | PROC_NOT_FOUND
  | NOACCESS
  | INVALID_PARAMETER
  | NOT_SUPPORTED
  | INVALID_HANDLE
  | ERROR_CANNOT_FIND_WND_CLASS
  | ERROR_WINDOW_OF_OTHER_THREAD
  deriving DecidableEq, Repr

/-- The Error Mapper, Error::get_last in wynapi.rs lines 139 to 151.
The argument err is the DWORD returned by the external GetLastError
call.  The catch-all arm of the source invokes the unimplemented macro,
a panic that never produces an Error value; that outcome is modelled as
none, so some reason means the mapper returned that symbolic reason and
none means it panicked. -/
def Error.get_last (err : Int) : Option Error :=
  match err with
  | 5 => some Error.NOT_SUPPORTED
  | 6 => some Error.INVALID_HANDLE
  | 87 => some Error.INVALID_PARAMETER
  | 127 => some Error.PROC_NOT_FOUND
  | 998 => some Error.NOACCESS
  | 1407 => some Error.ERROR_CANNOT_FIND_WND_CLASS
  | 1408 => some Error.ERROR_WINDOW_OF_OTHER_THREAD
  | _ => none

/-- struct POINT, wynapi.rs lines 110 to 115 (two LONG fields). -/
structure POINT where
  x : Int
  y : Int
  deriving DecidableEq, Repr

/-- struct MSG, wynapi.rs lines 97 to 108: the fixed-layout record the
OS message queue delivers.  hwnd is the target window handle, message
the message-type code (UINT), wParam the numeric payload (usize),
lParam the auxiliary field, then timestamp, cursor position and the
reserved lPrivate field. -/
structure MSG where
  hwnd : Int
  message : Nat
  wParam : Nat
  lParam : Int
  time : Int
  pt : POINT
  lPrivate : Int
  deriving DecidableEq, Repr

/-- One step of the Event Loop: get_message_a, wynapi.rs lines 276 to
291.  The argument is the outcome of the external GetMessageA call:
none when it returned false (quit signal or hard failure), some msg
when it filled the MSG record.  On false the wrapper logs and returns
None; otherwise it decodes msg.wParam through try_from and ok(),
consulting no other field of the record. -/
def get_message_a (res : Option MSG) : Option WtsState :=
  match res with
  | none => none
  | some msg => WtsState.try_from msg.wParam

/-- register_class_ex_a, wynapi.rs lines 203 to 212.  The argument res
is the ATOM returned by the external RegisterClassExA call; zero means
the class could not be registered (the wrapper logs and returns None),
a nonzero atom is returned in Some. -/
def register_class_ex_a (res : Nat) : Option Nat :=
  if res = 0 then none else some res

/-- Results each external OS call would produce during one run:
registerClassRes is the ATOM from RegisterClassExA, createWindowRes
the HWND from CreateWindowExA (0 = null), wtsRegisterRes the boolean
from WTSRegisterSessionNotification, and messages the successive
outcomes of the GetMessageA calls the loop makes (none = returned
false). -/
structure OsOracle where
  registerClassRes : Nat
  createWindowRes : Int
  wtsRegisterRes : Bool
  messages : List (Option MSG)
  deriving DecidableEq, Repr

/-- Outcome of create_window_ex_a: panicked models the expect call
aborting when class registration fails (no value is returned to the
caller), failed models the function returning None, ok h models Some
handle. -/
inductive CreateOutcome
  | panicked
  | failed
  | ok (handle : Int)
  deriving DecidableEq, Repr

/-- create_window_ex_a, wynapi.rs lines 215 to 257: builds the window
class and registers it, aborting through expect ("Cannot Register
Class") when register_class_ex_a yields None; then calls the external
CreateWindowExA, returning None when the handle is null and Some
handle otherwise. -/
def create_window_ex_a (os : OsOracle) : CreateOutcome :=
  match register_class_ex_a os.registerClassRes with
  | none => CreateOutcome.panicked
  | some _ =>
    if os.createWindowRes = 0 then CreateOutcome.failed
    else CreateOutcome.ok os.createWindowRes

/-- The arguments wts_register_session_notification passes to the
external WTSRegisterSessionNotification call. -/
structure WtsRegisterCall where
  hWnd : Int
  dwFlags : Int
  deriving DecidableEq, Repr

/-- wts_register_session_notification, wynapi.rs lines 260 to 274:
issues WTSRegisterSessionNotification with dwFlags hard-wired to
NOTIFY_FOR_THIS_SESSION; osRes is the boolean the external call
returns, and the wrapper yields None on false, Some unit on true.
The result pairs the call that was issued with the wrapper value. -/
def wts_register_session_notification (handle : Int) (osRes : Bool) :
    WtsRegisterCall × Option Unit :=
  (WtsRegisterCall.mk handle NOTIFY_FOR_THIS_SESSION,
   if osRes = false then none else some ())

/-- The while-let Event Loop of main, main.rs lines 18 to 25, run over
the successive GetMessageA outcomes: the list of WtsState values bound
by the loop (the yielded event sequence) together with a flag that is
true when the loop exited through a none from get_message_a and false
when the schedule ran out while the loop would still block on the next
retrieval. -/
def run_loop : List (Option MSG) → List WtsState × Bool
  | [] => ([], false)
  | r :: rest =>
    match get_message_a r with
    | none => ([], true)
    | some st =>
      let p := run_loop rest
      (st :: p.1, p.2)

/-- The event sequence the loop yields over a schedule of GetMessageA
outcomes. -/
def event_loop (sched : List (Option MSG)) : List WtsState :=
  (run_loop sched).1

/-- The OS calls main attempts, in order. -/
inductive Action
  | registerClass
  | createWindow
  | wtsRegister
  | getMessage
  | wtsUnregister
  deriving DecidableEq, Repr

/-- The GetMessageA calls the while-let loop performs over a schedule,
with the same exit flag as run_loop: after the first none result the
loop makes no further retrieval. -/
def loop_actions : List (Option MSG) → List Action × Bool
  | [] => ([], false)
  | r :: rest =>
    match get_message_a r with
    | none => ([Action.getMessage], true)
    | some _ =>
      let p := loop_actions rest
      (Action.getMessage :: p.1, p.2)

/-- The sequence of OS calls main attempts (main.rs lines 7 to 29)
given the oracle of external results.  create_window_ex_a first calls
RegisterClassExA; if that fails the expect inside create panics and
the run ends; if CreateWindowExA returns null, create returns None and
the unwrap in main panics.  Otherwise main calls
WTSRegisterSessionNotification, discarding its result, runs the
while-let loop, and after the loop exits calls
WTSUnRegisterSessionNotification.  When the schedule runs out while
the loop still blocks, the run is cut there and no unregistration
appears. -/
def main_trace (os : OsOracle) : List Action :=
  match create_window_ex_a os with
  | CreateOutcome.panicked => [Action.registerClass]
  | CreateOutcome.failed => [Action.registerClass, Action.createWindow]
  | CreateOutcome.ok _ =>
    let p := loop_actions os.messages
    [Action.registerClass, Action.createWindow, Action.wtsRegister]
      ++ p.1 ++ (if p.2 then [Action.wtsUnregister] else [])

/-- A delivered message record with the given message-type code and
wParam payload, all other fields zero. -/
def mkMsg (message : Nat) (wParam : Nat) : MSG :=
  MSG.mk 0 message wParam 0 0 (POINT.mk 0 0) 0

/-- Claim C1, counterexample.  The claim says a message whose payload
code is outside 0x1..0x9 yields no event while the loop continues
retrieving subsequent messages, so over the schedule with payloads
0x99 then 0x7 (both carried by session-change messages, type 0x2B1)
the loop would go on and yield Lock for the second message.  In the
code get_message_a turns the failed decode into None, the while-let
exits, and no Lock is ever yielded. -/
theorem C1_counterexample :
    event_loop [some (mkMsg 0x2B1 0x99), some (mkMsg 0x2B1 0x7)] ≠
      [WtsState.Lock] ∧
    event_loop [some (mkMsg 0x2B1 0x99), some (mkMsg 0x2B1 0x7)] = [] := by
  decide

/-- Claim C1, amended: for a retrieved message whose payload code does
not decode, the Event Loop yields no event for that message and
terminates at once, performing no further retrieval — a failed decode
ends the sequence exactly like a retrieval-level termination. -/
theorem C1_amended (msg : MSG) (rest : List (Option MSG))
    (h : WtsState.try_from msg.wParam = none) :
    run_loop (some msg :: rest) = ([], true) ∧
    loop_actions (some msg :: rest) = ([Action.getMessage], true) := by
  constructor
  · simp [run_loop, get_message_a, h]
  · simp [loop_actions, get_message_a, h]

/-- Claim C1, witness for the amended theorem at the concrete message
with payload 0x0 followed by a pending Lock message. -/
theorem C1_witness :
    run_loop [some (mkMsg 0x2B1 0x0), some (mkMsg 0x2B1 0x7)] = ([], true) ∧
    loop_actions [some (mkMsg 0x2B1 0x0), some (mkMsg 0x2B1 0x7)] =
      ([Action.getMessage], true) :=
  C1_amended (mkMsg 0x2B1 0x0) [some (mkMsg 0x2B1 0x7)] (by decide)

/-- Claim C2, counterexample.  For delivered payload codes 0x7, 0x99,
0x8 in that order the claim says the yielded sequence is exactly
Lock then Unlock; the code stops the loop at the undecodable 0x99, so
the yielded sequence is not that. -/
theorem C2_counterexample :
    event_loop
      [some (mkMsg 0x2B1 0x7), some (mkMsg 0x2B1 0x99),
        some (mkMsg 0x2B1 0x8)] ≠
      [WtsState.Lock, WtsState.Unlock] := by
  decide

/-- Claim C2, amended: for delivered payload codes 0x7, 0x99, 0x8 in
that order the yielded event sequence is exactly Lock — the Lock event
is yielded in arrival order, the undecodable 0x99 message then
terminates the loop, and the 0x8 message is never retrieved. -/
theorem C2_amended :
    event_loop
      [some (mkMsg 0x2B1 0x7), some (mkMsg 0x2B1 0x99),
        some (mkMsg 0x2B1 0x8)] = [WtsState.Lock] ∧
    loop_actions
      [some (mkMsg 0x2B1 0x7), some (mkMsg 0x2B1 0x99),
        some (mkMsg 0x2B1 0x8)] =
      ([Action.getMessage, Action.getMessage], true) := by
  decide

/-- Claim C3, counterexample.  In the run where the window is created
(atom 1, handle 1) but WTSRegisterSessionNotification returns false
(registration did not succeed) and the first retrieval reports
termination, main still attempts unregistration: main discards the
result of the registration wrapper. -/
theorem C3_counterexample :
    (OsOracle.mk 1 1 false [none]).wtsRegisterRes = false ∧
    Action.wtsUnregister ∈ main_trace (OsOracle.mk 1 1 false [none]) := by
  decide

/-- Claim C3, amended: registration is attempted only after a valid
(non-null) window handle exists, and unregistration is attempted only
after registration was attempted — but regardless of whether the
registration call succeeded, since main ignores its result. -/
theorem C3_amended (os : OsOracle) :
    (Action.wtsRegister ∈ main_trace os → os.createWindowRes ≠ 0) ∧
    (Action.wtsUnregister ∈ main_trace os →
      Action.wtsRegister ∈ main_trace os) := by
  by_cases hr : os.registerClassRes = 0
  · simp [main_trace, create_window_ex_a, register_class_ex_a, hr]
  · by_cases hw : os.createWindowRes = 0
    · simp [main_trace, create_window_ex_a, register_class_ex_a, hr, hw]
    · constructor
      · intro _; exact hw
      · intro _
        simp [main_trace, create_window_ex_a, register_class_ex_a, hr, hw]

/-- Claim C3, witness for the amended theorem at the oracle of a
complete successful run. -/
theorem C3_witness :
    (OsOracle.mk 1 1 true [none]).createWindowRes ≠ 0 ∧
    Action.wtsRegister ∈ main_trace (OsOracle.mk 1 1 true [none]) :=
  ⟨(C3_amended (OsOracle.mk 1 1 true [none])).1 (by decide),
   (C3_amended (OsOracle.mk 1 1 true [none])).2 (by decide)⟩

/-- Claim C4, counterexample.  When the window class cannot be
registered (RegisterClassExA returns atom 0), the claim says create
fails by returning no handle; the code instead panics through the
expect call, so the outcome is panicked, not the None-returning
failure. -/
theorem C4_counterexample :
    create_window_ex_a (OsOracle.mk 0 1 true []) = CreateOutcome.panicked ∧
    create_window_ex_a (OsOracle.mk 0 1 true []) ≠ CreateOutcome.failed := by
  decide

/-- Claim C4, amended: when the window class cannot be registered,
create panics via expect instead of returning to the caller; it
returns no handle (None) exactly when window instantiation fails after
successful class registration, and returns the handle when both steps
succeed.  No typed error value is returned in either failure case. -/
theorem C4_amended (os : OsOracle) :
    (os.registerClassRes = 0 →
      create_window_ex_a os = CreateOutcome.panicked) ∧
    (os.registerClassRes ≠ 0 → os.createWindowRes = 0 →
      create_window_ex_a os = CreateOutcome.failed) ∧
    (os.registerClassRes ≠ 0 → os.createWindowRes ≠ 0 →
      create_window_ex_a os = CreateOutcome.ok os.createWindowRes) := by
  refine ⟨fun hr => ?_, fun hr hw => ?_, fun hr hw => ?_⟩
  · simp [create_window_ex_a, register_class_ex_a, hr]
  · simp [create_window_ex_a, register_class_ex_a, hr, hw]
  · simp [create_window_ex_a, register_class_ex_a, hr, hw]

/-- Claim C4, witness for the amended theorem: the class-registration
failure panics, the null-handle case returns None, the successful case
returns the handle. -/
theorem C4_witness :
    create_window_ex_a (OsOracle.mk 0 7 true []) = CreateOutcome.panicked ∧
    create_window_ex_a (OsOracle.mk 3 0 true []) = CreateOutcome.failed ∧
    create_window_ex_a (OsOracle.mk 3 7 true []) = CreateOutcome.ok 7 :=
  ⟨(C4_amended (OsOracle.mk 0 7 true [])).1 rfl,
   (C4_amended (OsOracle.mk 3 0 true [])).2.1 (by decide) rfl,
   (C4_amended (OsOracle.mk 3 7 true [])).2.2 (by decide) (by decide)⟩

/-- Claim C5, counterexample.  A message of type 0 (WM_NULL, not a
session-change notification, whose type code is 0x2B1) carrying
payload 0x7 still yields the Lock event: the code never consults the
message-type code, contradicting the claim that it confirms the
message is a session-change notification before decoding and that
messages of other types yield no event. -/
theorem C5_counterexample :
    get_message_a (some (mkMsg 0x0 0x7)) = some WtsState.Lock ∧
    (mkMsg 0x0 0x7).message ≠ 0x2B1 := by
  decide

/-- Claim C5, amended: for every retrieved message the Event Loop
consumes only the payload code — the result of a retrieval step
depends on no other field of the message record, in particular not on
the message-type code, so a message of any type whose payload decodes
yields an event. -/
theorem C5_amended (m1 m2 : MSG) (h : m1.wParam = m2.wParam) :
    get_message_a (some m1) = get_message_a (some m2) := by
  simp [get_message_a, h]

/-- Claim C5, witness for the amended theorem: a WM_NULL message and a
session-change message with the same payload produce the same
result. -/
theorem C5_witness :
    get_message_a (some (mkMsg 0x0 0x7)) =
      get_message_a (some (mkMsg 0x2B1 0x7)) :=
  C5_amended (mkMsg 0x0 0x7) (mkMsg 0x2B1 0x7) rfl

/-- Claim C6, confirmed: the Event Decoder maps each code in 0x1..0x9
to exactly the corresponding variant (the source variant
RemoteDisconnnect is the one the spec spells RemoteDisconnect); since
these nine equations cover every code of the closed range, no code in
that range maps to any other variant. -/
theorem C6_decoder_mapping :
    WtsState.try_from 0x1 = some WtsState.ConsoleConnect ∧
    WtsState.try_from 0x2 = some WtsState.ConsoleDisconnect ∧
    WtsState.try_from 0x3 = some WtsState.RemoteConnect ∧
    WtsState.try_from 0x4 = some WtsState.RemoteDisconnnect ∧
    WtsState.try_from 0x5 = some WtsState.Logon ∧
    WtsState.try_from 0x6 = some WtsState.Logoff ∧
    WtsState.try_from 0x7 = some WtsState.Lock ∧
    WtsState.try_from 0x8 = some WtsState.Unlock ∧
    WtsState.try_from 0x9 = some WtsState.RemoteControl := by
  decide

/-- Claim C7, confirmed: the Error Mapper sends the OS codes 5, 6, 87,
127, 998, 1407, 1408 to NOT_SUPPORTED, INVALID_HANDLE,
INVALID_PARAMETER, PROC_NOT_FOUND, NOACCESS,
ERROR_CANNOT_FIND_WND_CLASS, ERROR_WINDOW_OF_OTHER_THREAD — the
variants the spec calls NotSupported, InvalidHandle, InvalidParameter,
ProcedureNotFound, NoAccess, ClassRegistrationFailed,
WindowOfOtherThread. -/
theorem C7_error_mapping :
    Error.get_last 5 = some Error.NOT_SUPPORTED ∧
    Error.get_last 6 = some Error.INVALID_HANDLE ∧
    Error.get_last 87 = some Error.INVALID_PARAMETER ∧
    Error.get_last 127 = some Error.PROC_NOT_FOUND ∧
    Error.get_last 998 = some Error.NOACCESS ∧
    Error.get_last 1407 = some Error.ERROR_CANNOT_FIND_WND_CLASS ∧
    Error.get_last 1408 = some Error.ERROR_WINDOW_OF_OTHER_THREAD := by
  decide

/-- Claim C8, confirmed: for every OS error code outside the
recognized set the Error Mapper returns no symbolic reason — the
catch-all arm is the unimplemented panic, modelled as none, so the
program does not continue past an unclassified OS error. -/
theorem C8_unmapped_fatal (c : Int)
    (h5 : c ≠ 5) (h6 : c ≠ 6) (h87 : c ≠ 87) (h127 : c ≠ 127)
    (h998 : c ≠ 998) (h1407 : c ≠ 1407) (h1408 : c ≠ 1408) :
    Error.get_last c = none := by
  unfold Error.get_last
  split <;> simp_all

/-- Claim C8, witness at the unrecognized code 999. -/
theorem C8_witness : Error.get_last 999 = none :=
  C8_unmapped_fatal 999 (by decide) (by decide) (by decide) (by decide)
    (by decide) (by decide) (by decide)

/-- Claim C9, confirmed: every issued registration call carries
dwFlags equal to NOTIFY_FOR_THIS_SESSION (0), never
NOTIFY_FOR_ALL_SESSIONS, whatever the handle and whatever the OS
answers. -/
theorem C9_this_session_only (handle : Int) (osRes : Bool) :
    (wts_register_session_notification handle osRes).1.dwFlags =
      NOTIFY_FOR_THIS_SESSION ∧
    (wts_register_session_notification handle osRes).1.dwFlags ≠
      NOTIFY_FOR_ALL_SESSIONS := by
  refine ⟨rfl, ?_⟩
  simp [wts_register_session_notification, NOTIFY_FOR_THIS_SESSION,
    NOTIFY_FOR_ALL_SESSIONS]

/-- Claim C10, confirmed: a retrieval step returns the same absent
result, none, both when GetMessageA reports termination or hard
failure and when the retrieved message carries an unrecognized payload
code, so the caller cannot tell queue shutdown from an undecodable
message. -/
theorem C10_indistinguishable (msg : MSG)
    (h : WtsState.try_from msg.wParam = none) :
    get_message_a (some msg) = none ∧ get_message_a none = none := by
  exact ⟨by simp [get_message_a, h], rfl⟩

/-- Claim C10, witness at the session-change message with the
unrecognized payload 0x99. -/
theorem C10_witness :
    get_message_a (some (mkMsg 0x2B1 0x99)) = none ∧
    get_message_a none = none :=
  C10_indistinguishable (mkMsg 0x2B1 0x99) (by decide)

end RustyLock
